import Mathlib

/-!
# Verification of the FashionMNIST distributed-training example

Shallow embedding of `examples/ai-ml/ray/sources/train.py`: the model
(`NeuralNetwork`), the per-epoch trainer (`train_epoch`), the per-epoch
validator (`validate_epoch`) and the training-loop driver (`train_func`).

Real numbers of the Python program are modelled by `ℚ`; the external
collaborators (torch autograd, the SGD optimizer, the dataset loader and the
distributed session) are parameters of the embedding, matching the Python
functions' own parameters (`model`, `loss_fn`, `optimizer`, `dataloader`)
and the ambient world size.
-/

/-- A labelled sample: the input tensor (flattened to a list of rationals)
together with its integer class label. -/
structure Sample where
  input : List ℚ
  label : ℕ
  deriving DecidableEq, Repr

/-- A batch is an ordered group of samples, as yielded by a dataloader. -/
abbrev Batch := List Sample

/-- A dataloader, as consumed by `train_epoch`/`validate_epoch`: it carries
the underlying dataset length (`len(dataloader.dataset)`) and the list of
batches its iteration yields.  After `prepare_data_loader` the iterated
batches are a per-worker shard while `dataset` stays the full dataset, so
the two components are independent. -/
structure Dataloader where
  datasetLen : ℕ
  batches : List Batch
  deriving DecidableEq, Repr

/-- Mutable training state: the model parameters and the optimizer's
accumulated gradients (both of parameter shape `P`). -/
structure MState (P : Type) where
  params : P
  grads : P
  deriving DecidableEq, Repr

/-- The external numeric collaborators, abstracted exactly at the boundary
the Python code uses them: the model forward on one sample input, the loss
function on a batch of predictions and labels, autograd's gradient of the
loss in the parameters, gradient accumulation (`+=` of `backward`), the
zero gradient (`zero_grad`), and the SGD update (`optimizer.step`, given
the learning rate). -/
structure TorchEnv (P : Type) where
  model : P → List ℚ → List ℚ
  lossFn : List (List ℚ) → List ℕ → ℚ
  gradOf : P → Batch → P
  addG : P → P → P
  zeroG : P
  optStep : ℚ → P → P → P

/-- Python runtime errors the embedded code can raise. -/
inductive PyErr where
  | zeroDivision
  deriving DecidableEq, Repr

/-- Outcome of running embedded Python code that may raise. -/
inductive PyResult (α : Type) where
  | ok (val : α)
  | error (err : PyErr)
  deriving DecidableEq, Repr

/-- Underlying value of a `PyResult`, if it did not raise. -/
def PyResult.toOption {α : Type} : PyResult α → Option α
  | .ok v => some v
  | .error _ => none

/-! ## The model (`NeuralNetwork`) -/

/-- Parameters of the `NeuralNetwork` module: three fully-connected layers
784→512, 512→512, 512→10 (weights and biases). -/
structure NeuralNetwork where
  w1 : Fin 512 → Fin 784 → ℚ
  b1 : Fin 512 → ℚ
  w2 : Fin 512 → Fin 512 → ℚ
  b2 : Fin 512 → ℚ
  w3 : Fin 10 → Fin 512 → ℚ
  b3 : Fin 10 → ℚ

/-- `nn.ReLU` on one entry. -/
def relu (x : ℚ) : ℚ := max x 0

/-- `nn.Linear`: affine map given weights and bias. -/
def linearLayer {m n : ℕ} (w : Fin m → Fin n → ℚ) (bias : Fin m → ℚ)
    (x : Fin n → ℚ) : Fin m → ℚ :=
  fun i => (∑ j, w i j * x j) + bias i

/-- `nn.Flatten` of a 28×28 image into a 784-vector (row-major). -/
def NeuralNetwork.flatten (img : Fin 28 → Fin 28 → ℚ) : Fin 784 → ℚ :=
  fun i => img ⟨i.val / 28, by have h := i.isLt; omega⟩ ⟨i.val % 28, by omega⟩

/-- The `linear_relu_stack` sequential: Linear(784,512), ReLU, Linear(512,512),
ReLU, Linear(512,10), ReLU. -/
def NeuralNetwork.linear_relu_stack (net : NeuralNetwork) (x : Fin 784 → ℚ) :
    Fin 10 → ℚ :=
  fun i =>
    relu (linearLayer net.w3 net.b3 (fun k =>
      relu (linearLayer net.w2 net.b2 (fun j =>
        relu (linearLayer net.w1 net.b1 x j)) k)) i)

/-- `NeuralNetwork.forward`: flatten the input, then apply the stack; the
result is the logits vector. -/
def NeuralNetwork.forward (net : NeuralNetwork) (img : Fin 28 → Fin 28 → ℚ) :
    Fin 10 → ℚ :=
  net.linear_relu_stack (NeuralNetwork.flatten img)

/-! ## The epoch trainer (`train_epoch`) -/

/-- Observable events of one `train_epoch` run, in program order: the
forward pass, the loss computation, `optimizer.zero_grad()`,
`loss.backward()`, `optimizer.step()` and the periodic progress print,
each tagged with the batch index. -/
inductive TEvent where
  | predEv (b : ℕ)
  | lossEv (b : ℕ)
  | zeroGradEv (b : ℕ)
  | backwardEv (b : ℕ)
  | stepEv (b : ℕ)
  | logEv (b : ℕ)
  deriving DecidableEq, Repr

/-- Whether an event is the periodic progress print. -/
def TEvent.isLog : TEvent → Bool
  | .logEv _ => true
  | _ => false

/-- Body of the `train_epoch` loop for one enumerated batch: forward pass,
loss, `zero_grad` (gradients reset), `backward` (gradient of this batch
accumulated), `step` (parameter update from the accumulated gradients),
and the print when `batch % 100 == 0`.  Returns the updated state and the
events in program order. -/
def trainBatchStep {P : Type} (env : TorchEnv P) (lr : ℚ) (b : ℕ) (batch : Batch)
    (st : MState P) : MState P × List TEvent :=
  let _pred := batch.map fun s => env.model st.params s.input
  let _loss := env.lossFn (batch.map fun s => env.model st.params s.input)
    (batch.map Sample.label)
  let g0 := env.zeroG
  let g1 := env.addG g0 (env.gradOf st.params batch)
  let p1 := env.optStep lr st.params g1
  (⟨p1, g1⟩,
    [.predEv b, .lossEv b, .zeroGradEv b, .backwardEv b, .stepEv b] ++
      (if b % 100 = 0 then [.logEv b] else []))

/-- The `for batch, (X, y) in enumerate(dataloader)` loop of `train_epoch`,
starting at batch index `b`. -/
def trainGo {P : Type} (env : TorchEnv P) (lr : ℚ) :
    ℕ → List Batch → MState P → MState P × List TEvent
  | _, [], st => (st, [])
  | b, batch :: rest, st =>
    let r1 := trainBatchStep env lr b batch st
    let r2 := trainGo env lr (b + 1) rest r1.1
    (r2.1, r1.2 ++ r2.2)

/-- `train_epoch(dataloader, model, loss_fn, optimizer)`: one pass over the
training batches in order, mutating the state once per batch.  `size` is
computed for the progress print only.  The returned event list is the
observable order of the numeric operations. -/
def train_epoch {P : Type} (dl : Dataloader) (env : TorchEnv P) (lr : ℚ)
    (ws : ℕ) (st : MState P) : MState P × List TEvent :=
  let _size := dl.datasetLen / ws
  trainGo env lr 0 dl.batches st

/-- The state transformer of one `train_epoch` call (the Python function
mutates `model`/`optimizer` in place and returns `None`). -/
def trainStep {P : Type} (dl : Dataloader) (env : TorchEnv P) (lr : ℚ)
    (ws : ℕ) (st : MState P) : MState P :=
  (train_epoch dl env lr ws st).1

/-! ## The epoch validator (`validate_epoch`) -/

/-- `pred.argmax(1)` on one sample's logits: first index attaining the
maximum. -/
def argmaxIdx : List ℚ → ℕ
  | [] => 0
  | [_] => 0
  | x :: y :: xs => if (y :: xs).foldl max y ≤ x then 0 else argmaxIdx (y :: xs) + 1

/-- `(pred.argmax(1) == y).type(torch.float).sum().item()` for one batch:
how many samples' predicted class equals the label. -/
def batchCorrect {P : Type} (env : TorchEnv P) (p : P) (batch : Batch) : ℕ :=
  (batch.filter fun s => argmaxIdx (env.model p s.input) = s.label).length

/-- One iteration of the `validate_epoch` loop: add this batch's loss to the
running total and this batch's correct count to the running count. -/
def valStep {P : Type} (env : TorchEnv P) (p : P) (a : ℚ × ℕ) (b : Batch) : ℚ × ℕ :=
  (a.1 + env.lossFn (b.map fun s => env.model p s.input) (b.map Sample.label),
    a.2 + batchCorrect env p b)

/-- Output of `validate_epoch`: `ret` is the Python return value (the average
loss); `accuracy` is the fraction the function computes and prints
(`correct` after `correct /= size`; the print shows `100 * accuracy`);
`state` is the training state after the run (the Python function works on
the model in place). -/
structure ValidateOut (P : Type) where
  state : MState P
  ret : ℚ
  accuracy : ℚ
  deriving DecidableEq, Repr

/-- `validate_epoch(dataloader, model, loss_fn)`: under `model.eval()` and
`torch.no_grad()` (no parameter or gradient mutation happens in the loop),
accumulate total loss and correct count over all batches, then divide the
loss total by the number of batches and the correct count by
`size = len(dataloader.dataset) // world_size`, in that order; either
division raises `ZeroDivisionError` if its denominator is zero. -/
def validate_epoch {P : Type} (dl : Dataloader) (env : TorchEnv P) (ws : ℕ)
    (st : MState P) : PyResult (ValidateOut P) :=
  let size := dl.datasetLen / ws
  let num_batches := dl.batches.length
  let acc := dl.batches.foldl (valStep env st.params) (0, 0)
  if num_batches = 0 then .error .zeroDivision
  else if size = 0 then .error .zeroDivision
  else .ok { state := st, ret := acc.1 / (num_batches : ℚ),
             accuracy := (acc.2 : ℚ) / (size : ℚ) }

/-! ## The training-loop driver (`train_func`) -/

/-- The recognized configuration options used by `train_func`. -/
structure Config where
  lr : ℚ
  batch_size : ℕ
  epochs : ℕ
  deriving DecidableEq, Repr

/-- One `session.report(dict(loss=loss), checkpoint=...)` call: the metric
dictionary (as an association list) and the checkpoint contents
`dict(epoch=epoch, model=state_dict)`. -/
structure Report (P : Type) where
  metrics : List (String × ℚ)
  ckptEpoch : ℕ
  ckptParams : P
  deriving DecidableEq, Repr

/-- What a completed `train_func` run produced: the returned `loss_results`
list and the stream of per-epoch reports, in order. -/
structure RunResult (P : Type) where
  lossResults : List ℚ
  reports : List (Report P)
  deriving DecidableEq, Repr

/-- `worker_batch_size = batch_size // session.get_world_size()` (train.py
line 101): integer floor division. -/
def worker_batch_size (batch_size world_size : ℕ) : ℕ :=
  batch_size / world_size

/-- The `for epoch in range(epochs)` loop of `train_func`: per epoch run the
trainer then the validator, append the validation loss to the result list,
and report the loss together with a checkpoint of the epoch index and the
current parameters.  A raise inside the validator aborts the loop. -/
def runEpochs {P : Type} (tdl vdl : Dataloader) (env : TorchEnv P) (lr : ℚ)
    (ws : ℕ) : List ℕ → MState P → PyResult (List ℚ × List (Report P))
  | [], _ => .ok ([], [])
  | e :: rest, st =>
    let st1 := trainStep tdl env lr ws st
    match validate_epoch vdl env ws st1 with
    | .error err => .error err
    | .ok out =>
      match runEpochs tdl vdl env lr ws rest out.state with
      | .error err => .error err
      | .ok lr2 =>
        .ok (out.ret :: lr2.1,
          ⟨[("loss", out.ret)], e, st1.params⟩ :: lr2.2)

/-- `train_func(config)`: read the configuration, derive the per-worker
batch size, build the two dataloaders from it (the `DataLoader`
constructor and `prepare_data_loader` are the external loader
collaborator), create the model and optimizer (the initial state and the
`TorchEnv`), and run the epoch loop. -/
def train_func {P : Type} (cfg : Config) (ws : ℕ)
    (trainLoader testLoader : ℕ → Dataloader) (env : TorchEnv P)
    (init : MState P) : PyResult (RunResult P) :=
  let wbs := worker_batch_size cfg.batch_size ws
  let train_dataloader := trainLoader wbs
  let test_dataloader := testLoader wbs
  match runEpochs train_dataloader test_dataloader env cfg.lr ws
      (List.range cfg.epochs) init with
  | .error e => .error e
  | .ok r => .ok ⟨r.1, r.2⟩

/-! ## Validator bookkeeping -/

/-- Sum of the per-batch loss values the validator's loop adds into
`test_loss`. -/
def sumLosses {P : Type} (env : TorchEnv P) (p : P) (batches : List Batch) : ℚ :=
  (batches.map fun b =>
    env.lossFn (b.map fun s => env.model p s.input) (b.map Sample.label)).sum

/-- Total correct-prediction count the validator's loop adds into
`correct`. -/
def totalCorrect {P : Type} (env : TorchEnv P) (p : P) (batches : List Batch) : ℕ :=
  (batches.map (batchCorrect env p)).sum

/-- Total number of samples the loop actually iterates over. -/
def totalSamples (batches : List Batch) : ℕ :=
  (batches.map List.length).sum

theorem foldl_valStep {P : Type} (env : TorchEnv P) (p : P) :
    ∀ (batches : List Batch) (a : ℚ) (c : ℕ),
      batches.foldl (valStep env p) (a, c) =
        (a + sumLosses env p batches, c + totalCorrect env p batches)
  | [], a, c => by simp [sumLosses, totalCorrect]
  | b :: bs, a, c => by
    simp only [List.foldl_cons, valStep]
    rw [foldl_valStep env p bs]
    simp [sumLosses, totalCorrect, add_assoc]

theorem validate_epoch_eq_ok {P : Type} (dl : Dataloader) (env : TorchEnv P)
    (ws : ℕ) (st : MState P) (out : ValidateOut P)
    (h : validate_epoch dl env ws st = .ok out) :
    dl.batches.length ≠ 0 ∧ dl.datasetLen / ws ≠ 0 ∧
      out = ⟨st, sumLosses env st.params dl.batches / (dl.batches.length : ℚ),
        (totalCorrect env st.params dl.batches : ℚ) / ((dl.datasetLen / ws : ℕ) : ℚ)⟩ := by
  unfold validate_epoch at h
  rw [foldl_valStep] at h
  by_cases h1 : dl.batches.length = 0
  · simp [h1] at h
  · by_cases h2 : dl.datasetLen / ws = 0
    · simp [h1, h2] at h
    · simp only [h1, h2, if_false, PyResult.ok.injEq] at h
      exact ⟨h1, h2, by simp [← h]⟩

theorem validate_epoch_state_eq {P : Type} (dl : Dataloader) (env : TorchEnv P)
    (ws : ℕ) (st : MState P) (out : ValidateOut P)
    (h : validate_epoch dl env ws st = .ok out) : out.state = st := by
  obtain ⟨-, -, rfl⟩ := validate_epoch_eq_ok dl env ws st out h
  rfl

theorem validate_epoch_nil {P : Type} (dl : Dataloader) (env : TorchEnv P)
    (ws : ℕ) (st : MState P) (hdl : dl.batches = []) :
    validate_epoch dl env ws st = .error .zeroDivision := by
  simp [validate_epoch, hdl]

theorem totalCorrect_le_totalSamples {P : Type} (env : TorchEnv P) (p : P)
    (batches : List Batch) : totalCorrect env p batches ≤ totalSamples batches := by
  unfold totalCorrect totalSamples
  apply List.sum_le_sum
  intro b _
  exact List.length_filter_le _ b

/-! ## Concrete instantiation used by witnesses and counterexamples -/

/-- A concrete `TorchEnv` over scalar parameters: one constant logit, a
constant loss, a constant gradient, and the plain SGD update. -/
def constEnv : TorchEnv ℚ where
  model := fun p _ => [p]
  lossFn := fun _ _ => 1
  gradOf := fun _ _ => 1
  addG := fun a b => a + b
  zeroG := 0
  optStep := fun lr p g => p - lr * g

/-- Fresh-model state. -/
def st0 : MState ℚ := ⟨0, 0⟩

/-- A sample of class 0, which `constEnv` always classifies correctly. -/
def s0 : Sample := ⟨[0], 0⟩

/-! ## Claims about the validator -/

/-- Accuracy as the spec claim words it: correct count divided by the number
of validation samples the worker actually processed. -/
def claimedAccuracy {P : Type} (env : TorchEnv P) (p : P) (batches : List Batch) : ℚ :=
  (totalCorrect env p batches : ℚ) / (totalSamples batches : ℚ)

/-- C3 counterexample: with dataset length 5 and world size 2 the code
divides the correct count 3 by `size = 5 // 2 = 2`, not by the 3 samples
the worker processed, so the accuracy it computes (3/2) differs from the
claimed fraction (1). -/
theorem c3_counterexample :
    (validate_epoch ⟨5, [[s0, s0, s0]]⟩ constEnv 2 st0).toOption.map ValidateOut.accuracy ≠
      some (claimedAccuracy constEnv st0.params [[s0, s0, s0]]) := by
  norm_num [validate_epoch, PyResult.toOption, valStep, claimedAccuracy, totalCorrect,
    totalSamples, batchCorrect, argmaxIdx, constEnv, st0, s0, sumLosses]

/-- C3 (amended): for every successful validation run, `validate_epoch`
returns the sum of the per-batch losses divided by the number of batches,
and the accuracy it computes and prints is the correct-prediction count
divided by the per-worker size `len(dataset) // world_size` (which equals
the number of samples processed only when the worker's shard has exactly
that many samples). -/
theorem c3_avg_loss_and_accuracy {P : Type} (dl : Dataloader) (env : TorchEnv P)
    (ws : ℕ) (st : MState P) (out : ValidateOut P)
    (h : validate_epoch dl env ws st = .ok out) :
    out.ret = sumLosses env st.params dl.batches / (dl.batches.length : ℚ) ∧
    out.accuracy = (totalCorrect env st.params dl.batches : ℚ) /
      ((dl.datasetLen / ws : ℕ) : ℚ) := by
  obtain ⟨-, -, rfl⟩ := validate_epoch_eq_ok dl env ws st out h
  exact ⟨rfl, rfl⟩

/-- Dataloader for the C3 witness. -/
def dlw3 : Dataloader := ⟨1, [[s0]]⟩

theorem c3_witness :
    (⟨st0, 1, 1⟩ : ValidateOut ℚ).ret =
      sumLosses constEnv st0.params dlw3.batches / (dlw3.batches.length : ℚ) ∧
    (⟨st0, 1, 1⟩ : ValidateOut ℚ).accuracy =
      (totalCorrect constEnv st0.params dlw3.batches : ℚ) /
        ((dlw3.datasetLen / 1 : ℕ) : ℚ) :=
  c3_avg_loss_and_accuracy dlw3 constEnv 1 st0 ⟨st0, 1, 1⟩
    (by norm_num [validate_epoch, valStep, dlw3, constEnv, st0, s0, batchCorrect, argmaxIdx])

/-- C4: the validator never mutates the training state: a successful run
returns the state it was given, and running it again from that state
yields the identical outcome (same loss, same accuracy). -/
theorem c4_validator_pure {P : Type} (dl : Dataloader) (env : TorchEnv P)
    (ws : ℕ) (st : MState P) (out : ValidateOut P)
    (h : validate_epoch dl env ws st = .ok out) :
    out.state = st ∧ validate_epoch dl env ws out.state = .ok out := by
  have hs := validate_epoch_state_eq dl env ws st out h
  exact ⟨hs, by rw [hs]; exact h⟩

/-- Dataloader for the C4 witness. -/
def dlw4 : Dataloader := ⟨2, [[s0], [s0]]⟩

theorem c4_witness :
    (⟨st0, 1, 1⟩ : ValidateOut ℚ).state = st0 ∧
    validate_epoch dlw4 constEnv 1 (⟨st0, 1, 1⟩ : ValidateOut ℚ).state =
      .ok ⟨st0, 1, 1⟩ :=
  c4_validator_pure dlw4 constEnv 1 st0 ⟨st0, 1, 1⟩
    (by norm_num [validate_epoch, valStep, dlw4, constEnv, st0, s0, batchCorrect, argmaxIdx])

/-- C5 counterexample: with dataset length 3 and world size 2 the per-worker
size is 1, but the worker processes 2 samples, both correct, so the
accuracy fraction the code computes is 2, outside [0,1]. -/
theorem c5_counterexample :
    (validate_epoch ⟨3, [[s0, s0]]⟩ constEnv 2 st0).toOption.map ValidateOut.accuracy =
      some 2 ∧ ¬ ((2 : ℚ) ≤ 1) := by
  constructor
  · norm_num [validate_epoch, PyResult.toOption, valStep, constEnv, st0, s0,
      batchCorrect, argmaxIdx]
  · norm_num

/-- C5 (amended): the accumulated correct count never exceeds the number of
samples processed; and whenever the samples processed are at most the
per-worker size `len(dataset) // world_size`, the accuracy fraction of a
successful run lies in [0,1].  (When the worker processes more samples
than that size — e.g. a padded shard — the fraction can exceed 1.) -/
theorem c5_accuracy_bounds {P : Type} (dl : Dataloader) (env : TorchEnv P)
    (ws : ℕ) (st : MState P) (out : ValidateOut P)
    (h : validate_epoch dl env ws st = .ok out)
    (hle : totalSamples dl.batches ≤ dl.datasetLen / ws) :
    totalCorrect env st.params dl.batches ≤ totalSamples dl.batches ∧
    0 ≤ out.accuracy ∧ out.accuracy ≤ 1 := by
  obtain ⟨-, hsz, rfl⟩ := validate_epoch_eq_ok dl env ws st out h
  refine ⟨totalCorrect_le_totalSamples env st.params dl.batches, ?_, ?_⟩
  · exact div_nonneg (Nat.cast_nonneg _) (Nat.cast_nonneg _)
  · rw [div_le_one (by exact_mod_cast Nat.pos_of_ne_zero hsz)]
    exact_mod_cast le_trans (totalCorrect_le_totalSamples env st.params dl.batches) hle

/-- Dataloader for the C5 witness. -/
def dlw5 : Dataloader := ⟨2, [[s0, s0]]⟩

theorem c5_witness :
    totalCorrect constEnv st0.params dlw5.batches ≤ totalSamples dlw5.batches ∧
    0 ≤ (⟨st0, 1, 1⟩ : ValidateOut ℚ).accuracy ∧
    (⟨st0, 1, 1⟩ : ValidateOut ℚ).accuracy ≤ 1 :=
  c5_accuracy_bounds dlw5 constEnv 1 st0 ⟨st0, 1, 1⟩
    (by norm_num [validate_epoch, valStep, dlw5, constEnv, st0, s0, batchCorrect, argmaxIdx])
    (by decide)

/-- C6: on an empty validation dataloader the validator raises
`ZeroDivisionError` at the `test_loss /= num_batches` division, and the
error propagates uncaught through `train_func` (whose first epoch runs the
validator on the test dataloader), aborting the run. -/
theorem c6_unhandled_zero_division {P : Type} (env : TorchEnv P) (dl : Dataloader)
    (ws : ℕ) (st : MState P) (hdl : dl.batches = [])
    (cfg : Config) (he : 1 ≤ cfg.epochs)
    (trainLoader testLoader : ℕ → Dataloader) (init : MState P)
    (ht : (testLoader (worker_batch_size cfg.batch_size ws)).batches = []) :
    validate_epoch dl env ws st = .error .zeroDivision ∧
    train_func cfg ws trainLoader testLoader env init = .error .zeroDivision := by
  refine ⟨validate_epoch_nil dl env ws st hdl, ?_⟩
  have hrun : runEpochs (trainLoader (worker_batch_size cfg.batch_size ws))
      (testLoader (worker_batch_size cfg.batch_size ws)) env cfg.lr ws
      (List.range cfg.epochs) init = .error .zeroDivision := by
    obtain ⟨m, hm⟩ := Nat.exists_eq_add_of_le he
    rw [hm, add_comm, List.range_succ_eq_map]
    rw [runEpochs, validate_epoch_nil _ env ws _ ht]
  unfold train_func
  simp only [hrun]

/-- A loader that yields no batches, for the C6 witness. -/
def emptyLoader : ℕ → Dataloader := fun _ => ⟨0, []⟩

theorem c6_witness :
    validate_epoch (emptyLoader 4) constEnv 1 st0 = .error .zeroDivision ∧
    train_func ⟨1, 4, 1⟩ 1 emptyLoader emptyLoader constEnv st0 =
      .error .zeroDivision :=
  c6_unhandled_zero_division constEnv (emptyLoader 4) 1 st0 rfl ⟨1, 4, 1⟩
    (by decide) emptyLoader emptyLoader st0 rfl

/-! ## Claims about the trainer's operation order -/

/-- The per-batch operation order the code performs: forward pass, loss,
`zero_grad`, `backward`, `step`, and the progress print at every 100th
batch. -/
def codeBatchTrace (b : ℕ) : List TEvent :=
  [.predEv b, .lossEv b, .zeroGradEv b, .backwardEv b, .stepEv b] ++
    (if b % 100 = 0 then [.logEv b] else [])

/-- The per-batch operation order the spec claim words: prediction, loss,
backpropagation, optimizer step, and only then clearing of the accumulated
gradients. -/
def claimedBatchTrace (b : ℕ) : List TEvent :=
  [.predEv b, .lossEv b, .backwardEv b, .stepEv b, .zeroGradEv b]

theorem trainGo_trace {P : Type} (env : TorchEnv P) (lr : ℚ) :
    ∀ (batches : List Batch) (b : ℕ) (st : MState P),
      (trainGo env lr b batches st).2 =
        ((List.range batches.length).map fun i => codeBatchTrace (b + i)).flatten
  | [], b, st => by simp [trainGo]
  | batch :: rest, b, st => by
    simp only [trainGo, List.length_cons, List.range_succ_eq_map, List.map_cons,
      List.map_map, List.flatten_cons, Nat.add_zero]
    rw [trainGo_trace env lr rest (b + 1)]
    have h1 : (trainBatchStep env lr b batch st).2 = codeBatchTrace b := rfl
    have h2 : ((fun i => codeBatchTrace (b + i)) ∘ Nat.succ) =
        fun i => codeBatchTrace (b + 1 + i) := by
      funext i
      simp only [Function.comp]
      congr 1
      omega
    rw [h1, h2]

/-- C2 counterexample: on a concrete two-batch dataloader the non-print
events of the run do not follow the claimed order — the third operation is
the gradient clearing, before backpropagation, not after the optimizer
step. -/
theorem c2_counterexample :
    ((train_epoch ⟨2, [[s0], [s0]]⟩ constEnv 1 1 st0).2.filter fun e => !e.isLog) ≠
      ((List.range 2).map claimedBatchTrace).flatten := by
  decide

/-- C2 (amended): `train_epoch` iterates once over all batches in order and,
for each batch, performs the steps in this order: compute the prediction,
compute the scalar loss, clear the accumulated gradients, propagate
gradients, apply one optimizer step (then print progress at every 100th
batch).  Gradients are thus cleared within each iteration before
backpropagation — not after the optimizer step — which still guarantees
cleared gradients before every backward pass. -/
theorem c2_batch_order {P : Type} (dl : Dataloader) (env : TorchEnv P) (lr : ℚ)
    (ws : ℕ) (st : MState P) :
    (train_epoch dl env lr ws st).2 =
      ((List.range dl.batches.length).map codeBatchTrace).flatten := by
  unfold train_epoch
  rw [trainGo_trace]
  simp

/-! ## Claims about the driver -/

/-- What a successful epoch loop guarantees, by induction over the epoch
index list: one loss and one report per epoch; the reported epoch indices
are exactly the loop's indices in order; every metric dictionary is the
singleton `loss` entry holding the corresponding returned loss; and the
i-th checkpoint holds the parameters produced by i+1 trainer passes. -/
theorem runEpochs_ok {P : Type} (tdl vdl : Dataloader) (env : TorchEnv P) (lr : ℚ)
    (ws : ℕ) :
    ∀ (es : List ℕ) (st : MState P) (ls : List ℚ) (rs : List (Report P)),
      runEpochs tdl vdl env lr ws es st = .ok (ls, rs) →
      ls.length = es.length ∧
      rs.map Report.ckptEpoch = es ∧
      rs.map Report.metrics = ls.map (fun l => [("loss", l)]) ∧
      ∀ i : ℕ, (rs[i]?).map Report.ckptParams =
        if i < es.length then
          some (((trainStep tdl env lr ws)^[i + 1] st).params)
        else none
  | [], st, ls, rs => by
    intro h
    simp only [runEpochs, PyResult.ok.injEq, Prod.mk.injEq] at h
    obtain ⟨hl, hr⟩ := h
    subst hl; subst hr
    simp
  | e :: rest, st, ls, rs => by
    intro h
    simp only [runEpochs] at h
    split at h
    · exact absurd h (by simp)
    · rename_i out hval
      split at h
      · exact absurd h (by simp)
      · rename_i pr hrec
        simp only [PyResult.ok.injEq, Prod.mk.injEq] at h
        obtain ⟨hl, hr⟩ := h
        subst hl; subst hr
        have hst : out.state = trainStep tdl env lr ws st :=
          validate_epoch_state_eq vdl env ws _ out hval
        obtain ⟨ih1, ih2, ih3, ih4⟩ :=
          runEpochs_ok tdl vdl env lr ws rest out.state pr.1 pr.2 (by rw [hrec])
        refine ⟨by simp [ih1], by simp [ih2], by simp [ih3], ?_⟩
        intro i
        cases i with
        | zero =>
          simp [Function.iterate_one]
        | succ i =>
          have := ih4 i
          rw [hst] at this
          simp only [List.getElem?_cons_succ, List.length_cons]
          rw [this]
          by_cases hi : i < rest.length
          · simp only [hi, if_true, Nat.add_lt_add_iff_right, if_pos hi]
            rw [← Function.iterate_succ_apply (trainStep tdl env lr ws) (i + 1) st]
          · simp [hi]

theorem train_func_eq_ok {P : Type} (cfg : Config) (ws : ℕ)
    (trainLoader testLoader : ℕ → Dataloader) (env : TorchEnv P)
    (init : MState P) (r : RunResult P)
    (h : train_func cfg ws trainLoader testLoader env init = .ok r) :
    runEpochs (trainLoader (worker_batch_size cfg.batch_size ws))
      (testLoader (worker_batch_size cfg.batch_size ws)) env cfg.lr ws
      (List.range cfg.epochs) init = .ok (r.lossResults, r.reports) := by
  unfold train_func at h
  dsimp only at h
  split at h
  · exact absurd h (by simp)
  · rename_i pr hrun
    simp only [PyResult.ok.injEq] at h
    rw [hrun, ← h]

/-- C1: for every epoch count E in the configuration a completed
`train_func` run returns exactly E epoch results and emits exactly E
checkpoints through the report call, with checkpoint epoch indices
`0, 1, ..., E-1` in order (no gaps, no duplicates); and for E = 0 the run
completes with an empty result list and no report at all. -/
theorem c1_epoch_counts {P : Type} (cfg : Config) (ws : ℕ)
    (trainLoader testLoader : ℕ → Dataloader) (env : TorchEnv P)
    (init : MState P) :
    (∀ r : RunResult P,
      train_func cfg ws trainLoader testLoader env init = .ok r →
      r.lossResults.length = cfg.epochs ∧ r.reports.length = cfg.epochs ∧
      r.reports.map Report.ckptEpoch = List.range cfg.epochs) ∧
    (cfg.epochs = 0 →
      train_func cfg ws trainLoader testLoader env init = .ok ⟨[], []⟩) := by
  constructor
  · intro r h
    obtain ⟨h1, h2, -, -⟩ := runEpochs_ok _ _ env cfg.lr ws _ init _ _
      (train_func_eq_ok cfg ws trainLoader testLoader env init r h)
    refine ⟨by simpa using h1, ?_, h2⟩
    have := congrArg List.length h2
    simpa using this
  · intro h0
    simp [train_func, h0, runEpochs]

/-- C7: the accuracy the validator computes is never surfaced by the driver:
in every completed run, each report's metric dictionary has exactly the key
`loss` (in particular no `accuracy` key), and the metric dictionaries are
precisely the singleton `loss` entries of the returned loss list. -/
theorem c7_only_loss_surfaced {P : Type} (cfg : Config) (ws : ℕ)
    (trainLoader testLoader : ℕ → Dataloader) (env : TorchEnv P)
    (init : MState P) (r : RunResult P)
    (h : train_func cfg ws trainLoader testLoader env init = .ok r) :
    (∀ rep ∈ r.reports, rep.metrics.map Prod.fst = ["loss"] ∧
      "accuracy" ∉ rep.metrics.map Prod.fst) ∧
    r.reports.map Report.metrics = r.lossResults.map (fun l => [("loss", l)]) := by
  obtain ⟨-, -, h3, -⟩ := runEpochs_ok _ _ env cfg.lr ws _ init _ _
    (train_func_eq_ok cfg ws trainLoader testLoader env init r h)
  refine ⟨?_, h3⟩
  intro rep hrep
  have hmem : rep.metrics ∈ r.reports.map Report.metrics :=
    List.mem_map_of_mem Report.metrics hrep
  rw [h3] at hmem
  obtain ⟨l, -, hl⟩ := List.mem_map.1 hmem
  rw [← hl]
  refine ⟨rfl, ?_⟩
  simp

/-- C10: in every completed run, the i-th returned loss is the loss value in
the i-th report's metric dictionary, the i-th checkpoint carries epoch
index i, and its parameters are the ones current at that report (the
result of i+1 trainer passes from the initial state). -/
theorem c10_report_consistency {P : Type} (cfg : Config) (ws : ℕ)
    (trainLoader testLoader : ℕ → Dataloader) (env : TorchEnv P)
    (init : MState P) (r : RunResult P)
    (h : train_func cfg ws trainLoader testLoader env init = .ok r)
    (i : ℕ) (hi : i < cfg.epochs) :
    (r.reports[i]?).map Report.metrics =
      (r.lossResults[i]?).map (fun l => [("loss", l)]) ∧
    (r.reports[i]?).map Report.ckptEpoch = some i ∧
    (r.reports[i]?).map Report.ckptParams =
      some (((trainStep (trainLoader (worker_batch_size cfg.batch_size ws))
        env cfg.lr ws)^[i + 1] init).params) ∧
    r.lossResults.length = cfg.epochs := by
  obtain ⟨h1, h2, h3, h4⟩ := runEpochs_ok _ _ env cfg.lr ws _ init _ _
    (train_func_eq_ok cfg ws trainLoader testLoader env init r h)
  refine ⟨?_, ?_, ?_, by simpa using h1⟩
  · have := congrArg (fun l => l[i]?) h3
    simpa [List.getElem?_map] using this
  · have := congrArg (fun l => l[i]?) h2
    simp only [List.getElem?_map] at this
    rw [this, List.getElem?_range (by simpa using hi)]
  · have := h4 i
    rw [if_pos (by simpa using hi)] at this
    exact this

/-- Training-data loader for the driver witnesses. -/
def trainLoaderW : ℕ → Dataloader := fun _ => ⟨4, [[s0]]⟩

/-- Test-data loader for the driver witnesses. -/
def testLoaderW : ℕ → Dataloader := fun _ => ⟨1, [[s0]]⟩

/-- The outcome of the concrete two-epoch run used by the C1 witness. -/
def runW2 : RunResult ℚ := ⟨[1, 1], [⟨[("loss", 1)], 0, -1⟩, ⟨[("loss", 1)], 1, -2⟩]⟩

theorem c1_witness :
    (runW2.lossResults.length = 2 ∧ runW2.reports.length = 2 ∧
      runW2.reports.map Report.ckptEpoch = List.range 2) ∧
    train_func ⟨1, 4, 0⟩ 1 trainLoaderW testLoaderW constEnv st0 = .ok ⟨[], []⟩ :=
  ⟨(c1_epoch_counts ⟨1, 4, 2⟩ 1 trainLoaderW testLoaderW constEnv st0).1 runW2
      (by norm_num [train_func, worker_batch_size, runEpochs, trainStep, train_epoch,
        trainGo, trainBatchStep, validate_epoch, valStep, batchCorrect, argmaxIdx,
        constEnv, st0, s0, trainLoaderW, testLoaderW, runW2, List.range_succ]),
   (c1_epoch_counts ⟨1, 4, 0⟩ 1 trainLoaderW testLoaderW constEnv st0).2 rfl⟩

/-- The outcome of the concrete one-epoch run used by the C7 witness. -/
def runW7 : RunResult ℚ := ⟨[1], [⟨[("loss", 1)], 0, -1⟩]⟩

theorem c7_witness :
    (∀ rep ∈ runW7.reports, rep.metrics.map Prod.fst = ["loss"] ∧
      "accuracy" ∉ rep.metrics.map Prod.fst) ∧
    runW7.reports.map Report.metrics = runW7.lossResults.map (fun l => [("loss", l)]) :=
  c7_only_loss_surfaced ⟨1, 4, 1⟩ 1 trainLoaderW testLoaderW constEnv st0 runW7
    (by norm_num [train_func, worker_batch_size, runEpochs, trainStep, train_epoch,
      trainGo, trainBatchStep, validate_epoch, valStep, batchCorrect, argmaxIdx,
      constEnv, st0, s0, trainLoaderW, testLoaderW, runW7, List.range_succ])

/-- The outcome of the concrete one-epoch run (learning rate 2) used by the
C10 witness. -/
def runW10 : RunResult ℚ := ⟨[1], [⟨[("loss", 1)], 0, -2⟩]⟩

theorem c10_witness :
    (runW10.reports[0]?).map Report.metrics =
      (runW10.lossResults[0]?).map (fun l => [("loss", l)]) ∧
    (runW10.reports[0]?).map Report.ckptEpoch = some 0 ∧
    (runW10.reports[0]?).map Report.ckptParams =
      some (((trainStep (trainLoaderW (worker_batch_size 4 1))
        constEnv 2 1)^[0 + 1] st0).params) ∧
    runW10.lossResults.length = 1 :=
  c10_report_consistency ⟨2, 4, 1⟩ 1 trainLoaderW testLoaderW constEnv st0 runW10
    (by norm_num [train_func, worker_batch_size, runEpochs, trainStep, train_epoch,
      trainGo, trainBatchStep, validate_epoch, valStep, batchCorrect, argmaxIdx,
      constEnv, st0, s0, trainLoaderW, testLoaderW, runW10, List.range_succ])
    0 (by decide)

/-! ## Claims about the model and the batch-size arithmetic -/

/-- C8: every entry of the logits vector returned by `NeuralNetwork.forward`
is non-negative, because the final 512→10 linear layer is itself followed
by a ReLU activation. -/
theorem c8_forward_nonneg (net : NeuralNetwork) (img : Fin 28 → Fin 28 → ℚ)
    (i : Fin 10) : 0 ≤ net.forward img i := by
  simp only [NeuralNetwork.forward, NeuralNetwork.linear_relu_stack, relu]
  exact le_max_right _ _

/-- C9: the per-worker batch size is the integer-division quotient
`batch_size // world_size`; it is 0 whenever `batch_size < world_size`, and
whenever the world size does not divide `batch_size` the remainder is
dropped, so the quotient times the world size is strictly less than the
configured `batch_size`. -/
theorem c9_worker_batch_size (bs ws : ℕ) :
    worker_batch_size bs ws = bs / ws ∧
    (bs < ws → worker_batch_size bs ws = 0) ∧
    (¬ ws ∣ bs → worker_batch_size bs ws * ws < bs) := by
  refine ⟨rfl, fun h => Nat.div_eq_of_lt h, fun h => ?_⟩
  rcases Nat.lt_or_ge (bs / ws * ws) bs with hlt | hge
  · exact hlt
  · exfalso
    have heq : bs / ws * ws = bs := le_antisymm (Nat.div_mul_le_self bs ws) hge
    exact h ⟨bs / ws, by rw [Nat.mul_comm, heq]⟩

theorem c9_witness :
    worker_batch_size 3 2 = 3 / 2 ∧ worker_batch_size 1 2 = 0 ∧
    worker_batch_size 3 2 * 2 < 3 :=
  ⟨(c9_worker_batch_size 3 2).1, (c9_worker_batch_size 1 2).2.1 (by decide),
   (c9_worker_batch_size 3 2).2.2 (by decide)⟩
